import Mathlib

/-!
# Verification of `unittest_patterns.spies`

A shallow embedding of `src/unittest_patterns/spies.py` together with proofs
about the claims of its specification.

The embedding covers:

* `is_subset_of` (spies.py, line 17-19): `dict(subset).items() <= dict(superset).items()`,
  modelled over association lists with Python's `dict(...)` conversion
  (later duplicate key wins, first-insertion order kept).
* `make_spy` (spies.py, line 42-145): target-kind validation, one-time target
  construction, the `_SpyFactory` closure and its `__call__` keyword merge
  `{"name": f"{target.__name__}()", **kwargs, **override}` with
  `override = {"spec": target, "spec_set": target, "wraps": instance}`.
* `AsyncContextManagerMock` (spies.py, line 148-162) as directly constructed
  without a spec, where the external mocking primitive's magic-method
  machinery installs MagicProxy entries on the per-instance class that shadow
  the subclass's own `async def __aenter__` / `__aexit__`: awaiting enter
  yields the child AsyncMock's return value and awaiting exit yields the
  preconfigured `False`, with both calls recorded.
-/

section PyDict

variable {K V : Type} [DecidableEq K]

/-- Association-list lookup: the value at the first entry whose key is `k`.
On a list with unique keys this is the mapping's lookup. -/
def lookupD : List (K × V) → K → Option V
  | [], _ => none
  | kv :: rest, k => if k = kv.1 then some kv.2 else lookupD rest k

/-- Value at the *last* occurrence of key `k` in a raw pair sequence
(the binding Python's `dict(...)` keeps for `k`). -/
def lastVal : List (K × V) → K → Option V
  | [], _ => none
  | kv :: rest, k =>
    match lastVal rest k with
    | some w => some w
    | none => if k = kv.1 then some kv.2 else none

/-- One step of Python `dict` construction: assigning `kv.1 ← kv.2` into the
accumulated dict. If the key is present its value is updated in place
(insertion order kept), otherwise the pair is appended. -/
def dictInsert (acc : List (K × V)) (kv : K × V) : List (K × V) :=
  if acc.any (fun x => decide (x.1 = kv.1)) then
    acc.map (fun x => if x.1 = kv.1 then (x.1, kv.2) else x)
  else
    acc ++ [kv]

/-- Python's `dict(pairs)`: left-to-right insertion, later occurrence of a
duplicate key overwrites the value, first-insertion order is kept. -/
def pyDict (ps : List (K × V)) : List (K × V) :=
  ps.foldl dictInsert []

/-- `is_subset_of` (spies.py line 17-19):
`dict(subset).items() <= dict(superset).items()` — every (key, value) item of
`dict(subset)` is an item of `dict(superset)`. -/
def is_subset_of [DecidableEq V] (superset subset : List (K × V)) : Bool :=
  (pyDict subset).all fun kv => decide (kv ∈ pyDict superset)

end PyDict

section SpyModel

/-- Metaclass of a class-like target: `type`, `abc.ABCMeta`, or a custom
metaclass with the given name. -/
inductive PyMeta : Type
  | typeMeta : PyMeta
  | abcMeta : PyMeta
  | customMeta (mname : String) : PyMeta
deriving DecidableEq

/-- The Python runtime type of a target, as observed by `type(target)`. -/
inductive PyType : Type
  | type : PyType
  | abcMeta : PyType
  | functionType : PyType
  | classT (cname : String) : PyType
deriving DecidableEq

/-- `__name__` of a runtime type. -/
def PyType.pyName : PyType → String
  | .type => "type"
  | .abcMeta => "ABCMeta"
  | .functionType => "function"
  | .classT cname => cname

/-- A raised Python exception. `typeError` is the `TypeError` raised by
`make_spy` itself; `exc kind msg` is an arbitrary exception of class `kind`
(for example one raised by the target's constructor). -/
inductive PyErr : Type
  | typeError (msg : String) : PyErr
  | exc (kind : String) (msg : String) : PyErr
deriving DecidableEq

/-- Behaviour of `target(*target_args, **target_kwargs)` for the supplied
constructor arguments: either produce an instance (carrying the class
docstring `doc`) or raise `e`. -/
inductive CtorBehavior : Type
  | ok (doc : Option String) : CtorBehavior
  | raises (e : PyErr) : CtorBehavior
deriving DecidableEq

/-- A possible `target` argument of `make_spy` (spies.py line 42-47): a
class-like object (with its metaclass, `__name__`, set of public member names,
and constructor behaviour for the supplied arguments), a plain function, or an
already-constructed instance of a class with the given name. -/
inductive PyTarget : Type
  | cls (meta : PyMeta) (cname : String) (contract : List String) (ctor : CtorBehavior) : PyTarget
  | func (fname : String) : PyTarget
  | inst (cname : String) : PyTarget
deriving DecidableEq

/-- `type(target)` (spies.py line 97): a class's runtime type is its
metaclass; a plain function's is `FunctionType`; an instance's is its class. -/
def typeOfT : PyTarget → PyType
  | .cls .typeMeta _ _ _ => .type
  | .cls .abcMeta _ _ _ => .abcMeta
  | .cls (.customMeta mname) _ _ _ => .classT mname
  | .func _ => .functionType
  | .inst cname => .classT cname

/-- `target.__name__` for class-like targets (used for the default spy name
and the factory name). -/
def PyTarget.pyName : PyTarget → String
  | .cls _ cname _ _ => cname
  | .func fname => fname
  | .inst cname => cname

/-- The member-name contract a class-like target exposes; non-class targets
expose none (they never reach proxy creation). -/
def contractOf : PyTarget → List String
  | .cls _ _ contract _ => contract
  | .func _ => []
  | .inst _ => []

/-- The constructor behaviour of a class-like target; non-class targets are
rejected by `make_spy` before construction is attempted. -/
def ctorOf : PyTarget → CtorBehavior
  | .cls _ _ _ ctor => ctor
  | .func _ => .raises (.typeError "not constructible")
  | .inst _ => .raises (.typeError "not constructible")

/-- The single wrapped object created by `instance = target(*args, **kwargs)`
(spies.py line 104). `id` is the Python object identity, `className` the name
of its class, `doc` its `__doc__`. -/
structure PyInstance : Type where
  id : Nat
  className : String
  doc : Option String
deriving DecidableEq

/-- A value appearing in the keyword-argument configuration handed to the
wrapper: a string (e.g. `name`), a class-like object (`spec`/`spec_set`),
a wrapped instance (`wraps`), or an opaque caller-supplied value. -/
inductive ConfigValue : Type
  | str (s : String) : ConfigValue
  | target (t : PyTarget) : ConfigValue
  | inst (i : PyInstance) : ConfigValue
  | obj (n : Nat) : ConfigValue
deriving DecidableEq

/-- The `_SpyFactory` object built by `make_spy` (spies.py line 106-124).
The closure captures `target` and `instance`; `_instance` stores the same
object that `__call__`'s `wraps` uses, so one field models both. -/
structure SpyFactory : Type where
  target : PyTarget
  inst : PyInstance
  fName : String
deriving DecidableEq

/-- `_SpyFactory.instance` (spies.py line 107-110): the read-only property
returning the wrapped instance. -/
def SpyFactory.instanceProp (f : SpyFactory) : PyInstance :=
  f.inst

/-- The spy returned by `_SpyFactory.__call__`: a `wrapper(*args, **kw)` mock
whose keyword configuration is `kw`, with `__doc__` copied from the instance
and a fresh (empty) interaction log. -/
structure Proxy : Type where
  config : List (String × ConfigValue)
  doc : Option String
  log : List String
deriving DecidableEq

/-- `_SpyFactory.__call__` (spies.py line 115-121):
`override = {"spec": target, "spec_set": target, "wraps": instance}`;
`kw = {"name": f"{target.__name__}()", **kwargs, **override}`;
`spy = wrapper(*args, **kw)`; `spy.__doc__ = instance.__doc__`.
The dict literal is a left-to-right `dict` build, so later duplicate keys win. -/
def SpyFactory.call (f : SpyFactory) (kwargs : List (String × ConfigValue)) : Proxy :=
  let override : List (String × ConfigValue) :=
    [("spec", .target f.target), ("spec_set", .target f.target), ("wraps", .inst f.inst)]
  let kw := pyDict ((("name", ConfigValue.str (f.target.pyName ++ "()")) :: kwargs) ++ override)
  { config := kw, doc := f.inst.doc, log := [] }

/-- `make_spy` (spies.py line 42-145), threading a fresh-object-identity
counter to record construction effects. Mirrors the source order: the
target-kind check of line 97-102, then `instance = target(*args, **kwargs)`
(line 104, errors propagate unmodified), then the `_SpyFactory` is built and
named (line 123-124). On success it returns the factory and the next fresh id. -/
def make_spy (target : PyTarget) (fresh : Nat) : Except PyErr (SpyFactory × Nat) :=
  if ¬ (typeOfT target = .type ∨ typeOfT target = .abcMeta) then
    if typeOfT target = .functionType then
      .error (.typeError "The target must be a class like object - received a FunctionType.")
    else
      -- class_name = getattr(target, "__class__", object).__name__
      let class_name := (typeOfT target).pyName
      .error (.typeError ("Received an instance of " ++ class_name ++ "(), expected target=" ++ class_name ++ "."))
  else
    match ctorOf target with
    | .raises e => .error e
    | .ok doc =>
      let inst : PyInstance := { id := fresh, className := target.pyName, doc := doc }
      .ok ({ target := target, inst := inst, fName := target.pyName ++ "SpyFactory" }, fresh + 1)

/-- Modelled from the spec: the external call-recording primitive (the mock
wrapper the factory configures), when given a strict effective contract
(`spec_set`), rejects at access time any member name absent from that
contract by raising `ContractViolation`, and permits in-contract names.
The rejection itself lives in the assumed mocking library, not in src;
only its configuration (`spec_set` in the merged keyword dict) is src code. -/
def Proxy.access (p : Proxy) (member : String) : Except PyErr Unit :=
  match lookupD p.config "spec_set" with
  | some (.target t) =>
      if (contractOf t).contains member then .ok ()
      else .error (.exc "ContractViolation" member)
  | _ => .ok ()

end SpyModel

section AsyncModel

/-- A Python value as observed by the async-context-manager protocol:
`none` is `None`, `boolV` a bool, `futureV v` an `asyncio.Future` whose
stored result is `v`, `objV` any other object (for example the proxy itself),
identified by object id. -/
inductive PyVal : Type
  | none : PyVal
  | boolV (b : Bool) : PyVal
  | futureV (v : PyVal) : PyVal
  | objV (id : Nat) : PyVal
deriving DecidableEq

/-- Python truthiness. `asyncio.Future` defines neither `__bool__` nor
`__len__`, so a Future object is truthy; `None` is falsy. -/
def truthy : PyVal → Bool
  | .none => false
  | .boolV b => b
  | .futureV _ => true
  | .objV _ => true

/-- An `AsyncContextManagerMock` (spies.py line 148-162) instance as obtained
by direct, spec-less construction — the spec's own scenario
`AsyncScopedRecordingProxy().enter()` / `.exit(None, None, None)`. The
operative semantics here is the external mocking primitive's magic-method
machinery (CPython 3.11 `unittest.mock`): `NonCallableMock.__new__` gives the
instance a fresh per-instance subclass, and `MagicMixin._mock_set_magics`
installs a `MagicProxy` on that subclass for every magic name not in its own
dict — including `__aenter__` and `__aexit__`, whose `async def` bodies
(spies.py line 149-162) live on the base class and are therefore shadowed
(dead code in this construction). `id` is the mock's object identity,
`aenterRetId` the identity of the lazily created child AsyncMock serving as
the preconfigured result of entering, `calls` the recorded interaction log
(method name and arguments, in call order). -/
structure MockACM : Type where
  id : Nat
  aenterRetId : Nat
  calls : List (String × List PyVal)
deriving DecidableEq

/-- Direct construction `AsyncContextManagerMock()` with the
fresh-object-identity counter: allocates the mock and its distinct
enter-result child, with an empty call log. -/
def mkMockACM (fresh : Nat) : MockACM × Nat :=
  ({ id := fresh, aenterRetId := fresh + 1, calls := [] }, fresh + 2)

/-- Awaiting `m.__aenter__()` on a directly constructed mock: the installed
`MagicProxy` resolves the name to an AsyncMock child with no preconfigured
entry in the primitive's fixed return-value table, so the await yields the
child call's `return_value` — a mock object distinct from `m` itself — and
the call is recorded. -/
def MockACM.aenterAwait (m : MockACM) : PyVal × MockACM :=
  (PyVal.objV m.aenterRetId, { m with calls := m.calls ++ [("__aenter__", [])] })

/-- Awaiting `m.__aexit__(exc_type, exc, tb)` on a directly constructed mock:
the installed `MagicProxy` resolves the name to an AsyncMock child whose
return value is the primitive's preconfigured fixed entry for this magic
name, `False`, independent of the three exception-descriptor arguments; the
call and its arguments are recorded, and nothing else changes. -/
def MockACM.aexitAwait (m : MockACM) (exc_type exc tb : PyVal) : PyVal × MockACM :=
  (PyVal.boolV false, { m with calls := m.calls ++ [("__aexit__", [exc_type, exc, tb])] })

/-- `async with` exception handling: after `r = await mgr.__aexit__(...)`,
a propagating exception is suppressed iff `r` is truthy. -/
def suppressesException (aexitResult : PyVal) : Bool :=
  truthy aexitResult

end AsyncModel

section Samples

/-- A sample well-formed target: an ordinary class (metaclass `type`) named
`Widget`, exposing one method `ping`, whose constructor succeeds with
docstring "widget doc". -/
def sampleTarget : PyTarget :=
  PyTarget.cls PyMeta.typeMeta "Widget" ["ping"] (CtorBehavior.ok (some "widget doc"))

/-- The instance `make_spy sampleTarget 0` creates. -/
def sampleInstance : PyInstance :=
  { id := 0, className := "Widget", doc := some "widget doc" }

/-- The factory `make_spy sampleTarget 0` returns. -/
def sampleFactory : SpyFactory :=
  { target := sampleTarget, inst := sampleInstance, fName := "WidgetSpyFactory" }

/-- A target whose class was built with a custom metaclass `Meta`: a
class-like construct, yet `type(target)` is neither `type` nor `ABCMeta`. -/
def customMetaTarget : PyTarget :=
  PyTarget.cls (PyMeta.customMeta "Meta") "Widget" ["ping"] (CtorBehavior.ok Option.none)

/-- A target whose constructor raises `RuntimeError("boom")`. -/
def failingCtorTarget : PyTarget :=
  PyTarget.cls PyMeta.typeMeta "Widget" ["ping"] (CtorBehavior.raises (PyErr.exc "RuntimeError" "boom"))

end Samples

section PyDictLemmas

variable {K V : Type} [DecidableEq K]

theorem lookupD_append (as bs : List (K × V)) (k : K) :
    lookupD (as ++ bs) k =
      match lookupD as k with
      | some w => some w
      | none => lookupD bs k := by
  induction as with
  | nil => simp [lookupD]
  | cons a rest ih =>
    simp only [List.cons_append, lookupD]
    by_cases hka : k = a.1
    · simp [hka]
    · simp only [if_neg hka]
      exact ih

theorem lookupD_map_update (l : List (K × V)) (k' : K) (v : V) (k : K) :
    lookupD (l.map fun x => if x.1 = k' then (x.1, v) else x) k =
      if k = k' then
        match lookupD l k' with
        | some _ => some v
        | none => none
      else lookupD l k := by
  induction l with
  | nil => by_cases hk : k = k' <;> simp [lookupD, hk]
  | cons a rest ih =>
    simp only [List.map_cons, lookupD]
    by_cases hak : a.1 = k' <;> by_cases hk : k = a.1
    · have hkk : k = k' := hk.trans hak
      simp [lookupD, hak, hk, hkk]
    · have hkk : ¬ k = k' := fun h => hk (h.trans hak.symm)
      simp [lookupD, hak, hk, hkk, ih]
    · have hkk : ¬ k = k' := fun h => hak (hk ▸ h)
      have hne : ¬ k' = a.1 := fun h => hkk (hk.trans h.symm)
      simp [lookupD, hak, hk, hkk, hne]
    · have hne : ¬ k' = a.1 := fun h => hak h.symm
      simp [lookupD, hak, hk, hne, ih]

theorem any_key_iff_lookupD (l : List (K × V)) (k' : K) :
    (l.any fun x => decide (x.1 = k')) = true ↔ (lookupD l k').isSome := by
  induction l with
  | nil => simp [lookupD]
  | cons a rest ih =>
    simp only [List.any_cons, Bool.or_eq_true, decide_eq_true_eq, lookupD]
    by_cases hak : a.1 = k'
    · simp [hak]
    · have hne : ¬ k' = a.1 := fun h => hak h.symm
      simp [hak, hne, ih]

theorem lookupD_dictInsert (acc : List (K × V)) (k' : K) (v : V) (k : K) :
    lookupD (dictInsert acc (k', v)) k = if k = k' then some v else lookupD acc k := by
  unfold dictInsert
  by_cases hmem : (acc.any fun x => decide (x.1 = k')) = true
  · rw [if_pos hmem, lookupD_map_update]
    by_cases hk : k = k'
    · rw [if_pos hk, if_pos hk]
      rcases Option.isSome_iff_exists.mp ((any_key_iff_lookupD acc k').mp hmem) with ⟨w, hw⟩
      rw [hw]
    · rw [if_neg hk, if_neg hk]
  · rw [if_neg hmem, lookupD_append]
    have hnone : lookupD acc k' = none := by
      rcases h : lookupD acc k' with _ | w
      · rfl
      · exact absurd ((any_key_iff_lookupD acc k').mpr (by simp [h])) hmem
    by_cases hk : k = k'
    · subst hk
      rw [hnone]
      simp [lookupD]
    · rw [if_neg hk]
      rcases h : lookupD acc k with _ | w
      · simp [lookupD, hk]
      · simp

theorem lookupD_foldl_dictInsert (ps : List (K × V)) (acc : List (K × V)) (k : K) :
    lookupD (ps.foldl dictInsert acc) k =
      match lastVal ps k with
      | some w => some w
      | none => lookupD acc k := by
  induction ps generalizing acc with
  | nil => simp [lastVal]
  | cons kv rest ih =>
    simp only [List.foldl_cons, lastVal]
    rw [ih]
    cases hrest : lastVal rest k with
    | some w => simp
    | none =>
      simp only []
      rw [lookupD_dictInsert acc kv.1 kv.2 k]
      by_cases hk : k = kv.1 <;> simp [hk]

/-- The mapping `dict(ps)` binds each key to the value of its *last* occurrence
in the pair sequence `ps`. -/
theorem lookupD_pyDict (ps : List (K × V)) (k : K) :
    lookupD (pyDict ps) k = lastVal ps k := by
  unfold pyDict
  rw [lookupD_foldl_dictInsert]
  cases lastVal ps k <;> simp [lookupD]

/-- `dict(...)` never binds the same key twice. -/
theorem pyDict_keys_nodup (ps : List (K × V)) :
    (pyDict ps).Pairwise (fun a b => a.1 ≠ b.1) := by
  unfold pyDict
  have main : ∀ (qs acc : List (K × V)), acc.Pairwise (fun a b => a.1 ≠ b.1) →
      (qs.foldl dictInsert acc).Pairwise (fun a b => a.1 ≠ b.1) := by
    intro qs
    induction qs with
    | nil => intro acc h; simpa using h
    | cons kv rest ih =>
      intro acc hacc
      simp only [List.foldl_cons]
      apply ih
      unfold dictInsert
      by_cases hmem : (acc.any fun x => decide (x.1 = kv.1)) = true
      · rw [if_pos hmem]
        have hkeys : ∀ x : K × V, ((if x.1 = kv.1 then (x.1, kv.2) else x) : K × V).1 = x.1 := by
          intro x; by_cases hx : x.1 = kv.1 <;> simp [hx]
        rw [List.pairwise_map]
        refine hacc.imp_of_mem ?_
        intro a b _ _ hab
        simpa [hkeys a, hkeys b] using hab
      · rw [if_neg hmem]
        rw [List.pairwise_append]
        refine ⟨hacc, List.pairwise_singleton _ _, ?_⟩
        intro a ha b hb
        simp only [List.mem_singleton] at hb
        subst hb
        simp only [List.any_eq_true, decide_eq_true_eq] at hmem
        push_neg at hmem
        exact hmem a ha
  exact main ps [] List.Pairwise.nil

/-- On a list with pairwise-distinct keys, pair membership coincides with lookup. -/
theorem mem_iff_lookupD {l : List (K × V)} (hu : l.Pairwise (fun a b => a.1 ≠ b.1))
    (k : K) (v : V) : (k, v) ∈ l ↔ lookupD l k = some v := by
  induction l with
  | nil => simp [lookupD]
  | cons a rest ih =>
    rw [List.pairwise_cons] at hu
    constructor
    · intro hmem
      rcases List.mem_cons.mp hmem with h | h
      · rw [← h]
        simp [lookupD]
      · have hne : k ≠ a.1 := by
          have := hu.1 (k, v) h
          exact fun hk => this (by rw [hk])
        simp only [lookupD, if_neg hne]
        exact (ih hu.2 |>.mp h)
    · intro hlook
      simp only [lookupD] at hlook
      by_cases hka : k = a.1
      · rw [if_pos hka] at hlook
        have hv : v = a.2 := by injection hlook with h; exact h.symm
        have : (k, v) = a := by rw [hka, hv]
        rw [this]
        exact List.mem_cons_self a rest
      · rw [if_neg hka] at hlook
        exact List.mem_cons_of_mem _ ((ih hu.2).mpr hlook)

end PyDictLemmas

section Helpers

theorem lastVal_append {K V : Type} [DecidableEq K] (as bs : List (K × V)) (k : K) :
    lastVal (as ++ bs) k =
      match lastVal bs k with
      | some w => some w
      | none => lastVal as k := by
  induction as with
  | nil => cases h : lastVal bs k <;> simp [lastVal, h]
  | cons a rest ih =>
    have ih' : lastVal (rest.append bs) k =
        match lastVal bs k with
        | some w => some w
        | none => lastVal rest k := ih
    simp only [List.cons_append, lastVal]
    rw [ih']
    cases h : lastVal bs k <;> cases h2 : lastVal rest k <;> simp [h, h2]

theorem lookupD_call_config (f : SpyFactory) (kwargs : List (String × ConfigValue)) (k : String) :
    lookupD (f.call kwargs).config k =
      if k = "spec" then some (ConfigValue.target f.target)
      else if k = "spec_set" then some (ConfigValue.target f.target)
      else if k = "wraps" then some (ConfigValue.inst f.inst)
      else
        match lastVal kwargs k with
        | some v => some v
        | none =>
          if k = "name" then some (ConfigValue.str (f.target.pyName ++ "()")) else none := by
  have hconf : (f.call kwargs).config =
      pyDict ((("name", ConfigValue.str (f.target.pyName ++ "()")) :: kwargs) ++
        [("spec", ConfigValue.target f.target), ("spec_set", ConfigValue.target f.target),
         ("wraps", ConfigValue.inst f.inst)]) := rfl
  rw [hconf, lookupD_pyDict, lastVal_append]
  by_cases h1 : k = "spec"
  · subst h1
    simp [lastVal]
  · by_cases h2 : k = "spec_set"
    · subst h2
      simp [lastVal]
    · by_cases h3 : k = "wraps"
      · subst h3
        simp [lastVal]
      · by_cases h4 : k = "name"
        · subst h4
          cases hkv : lastVal kwargs "name" <;> simp [lastVal, hkv]
        · cases hkv : lastVal kwargs k <;> simp [lastVal, h1, h2, h3, h4, hkv]

theorem call_log_empty (f : SpyFactory) (kwargs : List (String × ConfigValue)) :
    (f.call kwargs).log = [] := rfl

end Helpers

section Claims

/-- C1: every call of a factory merges the proxy configuration with the
precedence default name ("<TargetName>()") < caller kwargs < the three
reserved fields (`spec`, `spec_set`, `wraps`), which are forced to the
target, the target, and the wrapped instance respectively. Caller values for
the three reserved names are silently dropped, while a caller-supplied
`name` (last occurrence) replaces the default and every other caller
keyword survives the merge. -/
theorem spy_call_override_precedence (f : SpyFactory) (kwargs : List (String × ConfigValue)) :
    lookupD (f.call kwargs).config "spec" = some (ConfigValue.target f.target) ∧
    lookupD (f.call kwargs).config "spec_set" = some (ConfigValue.target f.target) ∧
    lookupD (f.call kwargs).config "wraps" = some (ConfigValue.inst f.inst) ∧
    (lastVal kwargs "name" = Option.none →
      lookupD (f.call kwargs).config "name" =
        some (ConfigValue.str (f.target.pyName ++ "()"))) ∧
    (∀ (k : String) (v : ConfigValue), k ≠ "spec" → k ≠ "spec_set" → k ≠ "wraps" →
      lastVal kwargs k = some v → lookupD (f.call kwargs).config k = some v) := by
  refine ⟨?_, ?_, ?_, ?_, ?_⟩
  · rw [lookupD_call_config]
    simp
  · rw [lookupD_call_config]
    simp
  · rw [lookupD_call_config]
    simp
  · intro hnone
    rw [lookupD_call_config]
    simp [hnone]
  · intro k v h1 h2 h3 hkv
    rw [lookupD_call_config, if_neg h1, if_neg h2, if_neg h3, hkv]

theorem spy_call_override_precedence_witness :
    lookupD ((SpyFactory.call sampleFactory
        [("name", ConfigValue.str "Custom"), ("spec", ConfigValue.obj 7)]).config) "name" =
      some (ConfigValue.str "Custom") ∧
    lookupD ((SpyFactory.call sampleFactory
        [("name", ConfigValue.str "Custom"), ("spec", ConfigValue.obj 7)]).config) "spec" =
      some (ConfigValue.target sampleTarget) :=
  ⟨(spy_call_override_precedence sampleFactory
      [("name", ConfigValue.str "Custom"), ("spec", ConfigValue.obj 7)]).2.2.2.2
      "name" (ConfigValue.str "Custom") (by decide) (by decide) (by decide) rfl,
    (spy_call_override_precedence sampleFactory
      [("name", ConfigValue.str "Custom"), ("spec", ConfigValue.obj 7)]).1⟩

/-- C2: a successful `make_spy` allocates exactly one instance (the fresh-id
counter advances by exactly one, and the factory's instance carries that id),
the read accessor `instance` returns that same object, and every proxy the
factory produces wraps that identical object in its `wraps` field while
starting with its own empty interaction log. -/
theorem factory_single_instance (t : PyTarget) (fresh : Nat) (f : SpyFactory) (n : Nat)
    (h : make_spy t fresh = Except.ok (f, n)) :
    n = fresh + 1 ∧ f.inst.id = fresh ∧ f.instanceProp = f.inst ∧
    ∀ kwargs, lookupD (f.call kwargs).config "wraps" = some (ConfigValue.inst f.inst) ∧
      (f.call kwargs).log = [] := by
  have hparts : f.inst.id = fresh ∧ n = fresh + 1 := by
    unfold make_spy at h
    by_cases hguard : ¬ (typeOfT t = PyType.type ∨ typeOfT t = PyType.abcMeta)
    · rw [if_pos hguard] at h
      by_cases hf : typeOfT t = PyType.functionType
      · rw [if_pos hf] at h
        exact absurd h (by simp)
      · rw [if_neg hf] at h
        exact absurd h (by simp)
    · rw [if_neg hguard] at h
      cases hc : ctorOf t with
      | raises e =>
        rw [hc] at h
        exact absurd h (by simp)
      | ok doc =>
        rw [hc] at h
        simp only [Except.ok.injEq, Prod.mk.injEq] at h
        obtain ⟨hf, hn⟩ := h
        exact ⟨by rw [← hf], hn.symm⟩
  refine ⟨hparts.2, hparts.1, rfl, ?_⟩
  intro kwargs
  refine ⟨?_, rfl⟩
  rw [lookupD_call_config]
  simp

theorem factory_single_instance_witness :
    1 = 0 + 1 ∧
    lookupD ((SpyFactory.call sampleFactory []).config) "wraps" =
      some (ConfigValue.inst sampleFactory.inst) :=
  ⟨(factory_single_instance sampleTarget 0 sampleFactory 1 rfl).1,
    ((factory_single_instance sampleTarget 0 sampleFactory 1 rfl).2.2.2 []).1⟩

/-- C3: on any proxy produced by a factory, accessing a member name absent
from the target's contract fails with `ContractViolation`: the merged
configuration always carries `spec_set = target`, and the recording primitive
(modelled from the spec) rejects out-of-contract names at access time; the
error is returned to the caller, never caught internally. -/
theorem proxy_contract_violation (f : SpyFactory) (kwargs : List (String × ConfigValue))
    (m : String) (hm : (contractOf f.target).contains m = false) :
    (f.call kwargs).access m = Except.error (PyErr.exc "ContractViolation" m) := by
  have hs : lookupD (f.call kwargs).config "spec_set" = some (ConfigValue.target f.target) := by
    rw [lookupD_call_config]
    simp
  have hm' : ¬ (m ∈ contractOf f.target) := by simpa using hm
  unfold Proxy.access
  rw [hs]
  simp [hm']

theorem proxy_contract_violation_witness :
    (contractOf sampleFactory.target).contains "pong" = false ∧
    (SpyFactory.call sampleFactory []).access "pong" =
      Except.error (PyErr.exc "ContractViolation" "pong") :=
  ⟨by decide, proxy_contract_violation sampleFactory [] "pong" (by decide)⟩

/-- C4: `is_subset_of superset subset` is true iff every (key, value) pair of
`dict(subset)` is present with an equal value in `dict(superset)`; it is a
pure function of its arguments; and on the spec's concrete examples it
returns true for a genuine sub-mapping, false on a value mismatch, and true
for an empty subset against any superset. -/
theorem is_subset_of_correct :
    (∀ {K V : Type} [DecidableEq K] [DecidableEq V] (superset subset : List (K × V)),
      is_subset_of superset subset = true ↔
        ∀ k v, lookupD (pyDict subset) k = some v → lookupD (pyDict superset) k = some v) ∧
    is_subset_of [(("a" : String), (1 : Int)), ("b", 2)] [("a", 1)] = true ∧
    is_subset_of [(("a" : String), (1 : Int))] [("a", 2)] = false ∧
    ∀ superset : List (String × Int), is_subset_of superset [] = true := by
  refine ⟨?_, by decide, by decide, fun superset => rfl⟩
  intro K V _ _ superset subset
  unfold is_subset_of
  rw [List.all_eq_true]
  constructor
  · intro hall k v hsub
    have hmem : (k, v) ∈ pyDict subset :=
      (mem_iff_lookupD (pyDict_keys_nodup subset) k v).mpr hsub
    have := hall (k, v) hmem
    rw [decide_eq_true_eq] at this
    exact (mem_iff_lookupD (pyDict_keys_nodup superset) k v).mp this
  · intro hlook kv hmem
    rw [decide_eq_true_eq]
    rcases kv with ⟨k, v⟩
    have hsub : lookupD (pyDict subset) k = some v :=
      (mem_iff_lookupD (pyDict_keys_nodup subset) k v).mp hmem
    exact (mem_iff_lookupD (pyDict_keys_nodup superset) k v).mpr (hlook k v hsub)

theorem is_subset_of_correct_witness :
    lookupD (pyDict [(("a" : String), (1 : Int)), ("b", 2)]) "a" = some 1 :=
  (is_subset_of_correct.1 [("a", 1), ("b", 2)] [("a", 1)]).mp
    is_subset_of_correct.2.1 "a" 1 (by decide)

/-- C5: on the async scoped recording proxy (directly constructed, the spec's
own exit scenario), awaiting exit with any exception-descriptor triple
resolves to `False` — a falsy value, independent of the arguments, so no
suppression logic runs and an in-flight exception is never suppressed — and
the only state change is that the call and its arguments are appended to the
interaction log (identity and enter-result child are untouched). -/
theorem aexit_falsy_never_suppresses (m : MockACM) (a b c : PyVal) :
    (m.aexitAwait a b c).1 = PyVal.boolV false ∧
    truthy (m.aexitAwait a b c).1 = false ∧
    suppressesException (m.aexitAwait a b c).1 = false ∧
    (m.aexitAwait a b c).2.calls = m.calls ++ [("__aexit__", [a, b, c])] ∧
    (m.aexitAwait a b c).2.id = m.id ∧
    (m.aexitAwait a b c).2.aenterRetId = m.aenterRetId :=
  ⟨rfl, rfl, rfl, rfl, rfl, rfl⟩

end Claims

/-- C6 counterexample: a class built with a custom metaclass is neither a
plain function nor an already-constructed instance, yet `make_spy` rejects
it (with the instance-form message), so the two listed cases are not the
only precondition-violation failures. -/
theorem make_spy_custom_metaclass_rejected :
    make_spy customMetaTarget 0 =
      Except.error (PyErr.typeError
        "Received an instance of Meta(), expected target=Meta.") := by
  rfl

/-- C6 amended: `make_spy` fails synchronously with `InvalidTargetKind`
(`TypeError`) whenever `type(target)` is neither exactly `type` nor
`ABCMeta`: for a plain function with the function-not-class message, and for
every other rejected target (already-constructed instances, but also classes
with a custom metaclass) with a message naming `type(target)`'s name twice,
once as received and once as expected; targets whose metaclass is `type` or
`ABCMeta` never fail the precondition check, only by constructor
propagation. -/
theorem make_spy_target_kind_errors (t : PyTarget) (fresh : Nat) :
    (typeOfT t = PyType.functionType →
      make_spy t fresh = Except.error (PyErr.typeError
        "The target must be a class like object - received a FunctionType.")) ∧
    ((typeOfT t ≠ PyType.type ∧ typeOfT t ≠ PyType.abcMeta ∧ typeOfT t ≠ PyType.functionType) →
      make_spy t fresh = Except.error (PyErr.typeError
        ("Received an instance of " ++ (typeOfT t).pyName ++
          "(), expected target=" ++ (typeOfT t).pyName ++ "."))) ∧
    (∀ e, (typeOfT t = PyType.type ∨ typeOfT t = PyType.abcMeta) →
      make_spy t fresh = Except.error e → ctorOf t = CtorBehavior.raises e) := by
  refine ⟨?_, ?_, ?_⟩
  · intro h
    have hguard : ¬ (typeOfT t = PyType.type ∨ typeOfT t = PyType.abcMeta) := by
      simp [h]
    unfold make_spy
    rw [if_pos hguard, if_pos h]
  · intro ⟨h1, h2, h3⟩
    have hguard : ¬ (typeOfT t = PyType.type ∨ typeOfT t = PyType.abcMeta) := by
      simp [h1, h2]
    unfold make_spy
    rw [if_pos hguard, if_neg h3]
  · intro e hok herr
    unfold make_spy at herr
    rw [if_neg (not_not_intro hok)] at herr
    cases hc : ctorOf t with
    | ok doc =>
      rw [hc] at herr
      exact absurd herr (by simp)
    | raises e' =>
      rw [hc] at herr
      simp only [Except.error.injEq] at herr
      rw [herr]

theorem make_spy_target_kind_errors_witness :
    make_spy (PyTarget.inst "Widget") 0 =
      Except.error (PyErr.typeError
        "Received an instance of Widget(), expected target=Widget.") := by
  have h := (make_spy_target_kind_errors (PyTarget.inst "Widget") 0).2.1
    ⟨by decide, by decide, by decide⟩
  simpa [typeOfT, PyType.pyName] using h

/-- C7: acceptance is decided by `type(target)` being exactly `type` or
`ABCMeta`. A class built with any custom metaclass is rejected with the
instance-form error naming the metaclass twice (as received and as
expected), even though it is a type; and conversely every target `make_spy`
accepts has `type(target)` equal to `type` or `ABCMeta`. -/
theorem make_spy_metaclass_gate :
    (∀ (m cname : String) (contract : List String) (ctor : CtorBehavior) (fresh : Nat),
      make_spy (PyTarget.cls (PyMeta.customMeta m) cname contract ctor) fresh =
        Except.error (PyErr.typeError
          ("Received an instance of " ++ m ++ "(), expected target=" ++ m ++ "."))) ∧
    (∀ (t : PyTarget) (fresh : Nat) (f : SpyFactory) (n : Nat),
      make_spy t fresh = Except.ok (f, n) →
        typeOfT t = PyType.type ∨ typeOfT t = PyType.abcMeta) := by
  constructor
  · intro m cname contract ctor fresh
    have hguard : ¬ (typeOfT (PyTarget.cls (PyMeta.customMeta m) cname contract ctor) = PyType.type ∨
        typeOfT (PyTarget.cls (PyMeta.customMeta m) cname contract ctor) = PyType.abcMeta) := by
      simp [typeOfT]
    unfold make_spy
    rw [if_pos hguard, if_neg (by simp [typeOfT])]
    simp [typeOfT, PyType.pyName]
  · intro t fresh f n h
    by_cases hok : typeOfT t = PyType.type ∨ typeOfT t = PyType.abcMeta
    · exact hok
    · exfalso
      unfold make_spy at h
      rw [if_pos hok] at h
      by_cases hf : typeOfT t = PyType.functionType
      · rw [if_pos hf] at h
        exact absurd h (by simp)
      · rw [if_neg hf] at h
        exact absurd h (by simp)

theorem make_spy_metaclass_gate_witness :
    typeOfT sampleTarget = PyType.type ∨ typeOfT sampleTarget = PyType.abcMeta :=
  make_spy_metaclass_gate.2 sampleTarget 0 sampleFactory 1 rfl

/-- C8: what the code does at enter on a directly constructed async scoped
recording proxy. The `async def __aenter__` body `return self` (and its
docstring "Return self when entering the context.") is shadowed by the
mocking primitive's MagicProxy, so awaiting enter resolves to the child
AsyncMock — an object distinct from the proxy itself, by identity — while
the call is recorded; it does not resolve to the proxy, contrary to the
claim and the method's own docstring. -/
theorem aenter_resolves_to_child_mock (fresh : Nat) :
    ((mkMockACM fresh).1.aenterAwait).1 = PyVal.objV (mkMockACM fresh).1.aenterRetId ∧
    (mkMockACM fresh).1.aenterRetId ≠ (mkMockACM fresh).1.id ∧
    ((mkMockACM fresh).1.aenterAwait).1 ≠ PyVal.objV (mkMockACM fresh).1.id ∧
    ((mkMockACM fresh).1.aenterAwait).2.calls = [("__aenter__", [])] := by
  refine ⟨rfl, ?_, ?_, rfl⟩
  · simp [mkMockACM]
  · simp [mkMockACM, MockACM.aenterAwait]

/-- C9: when `make_spy` passes the target-kind check and the construction
`target(*target_args, **target_kwargs)` raises, the very same error is the
result of `make_spy`, unwrapped, and no factory object is produced. -/
theorem make_spy_ctor_error_propagates (t : PyTarget) (fresh : Nat) (e : PyErr)
    (hok : typeOfT t = PyType.type ∨ typeOfT t = PyType.abcMeta)
    (hc : ctorOf t = CtorBehavior.raises e) :
    make_spy t fresh = Except.error e := by
  unfold make_spy
  rw [if_neg (not_not_intro hok), hc]

theorem make_spy_ctor_error_propagates_witness :
    make_spy failingCtorTarget 0 = Except.error (PyErr.exc "RuntimeError" "boom") :=
  make_spy_ctor_error_propagates failingCtorTarget 0
    (PyErr.exc "RuntimeError" "boom") (Or.inl rfl) rfl

/-- C10: converting a pair sequence to the mapping used for the subset
comparison keeps the later occurrence of a duplicate key: whenever `(k, v1)`
occurs before `(k, v2)` and `(k, v2)` is the last binding of `k`, the
resulting dict binds `k` to `v2`. -/
theorem pyDict_later_occurrence_wins {K V : Type} [DecidableEq K]
    (as bs cs : List (K × V)) (k : K) (v1 v2 : V)
    (hlast : lastVal cs k = Option.none) :
    lookupD (pyDict (as ++ (k, v1) :: bs ++ (k, v2) :: cs)) k = some v2 := by
  have h1 : lastVal ((k, v2) :: cs) k = some v2 := by
    simp [lastVal, hlast]
  rw [lookupD_pyDict, lastVal_append, h1]

theorem pyDict_later_occurrence_wins_witness :
    lookupD (pyDict [(("a" : String), (1 : Int)), ("a", 2)]) "a" = some 2 :=
  pyDict_later_occurrence_wins [] [] [] "a" 1 2 rfl
